import Mathlib

/-!
Shallow embedding of the Hal repository (file src/main.rs): a single-shot
pipeline that asks heliocron for the sunrise and sunset of today at given
coordinates and emits a two-key JSON object to stdout or a file.

The heliocron solar calculation itself is an external collaborator; the
pipeline is modelled parametrically over it (the calcFn argument below),
exactly as the spec treats compute_event as a black box.  Verbose diagnostic
printing is excluded from the model, as the scope section of the spec
excludes logging and verbosity printing.
-/

namespace Hal

/-- Wall-clock time of day with whole seconds, as the chrono NaiveTime of a
heliocron event time carries (heliocron rounds event instants to whole
seconds, so the sub-second part is zero and the chrono Display
implementation prints HH:MM:SS). -/
structure NaiveTime where
  hour : Nat
  minute : Nat
  second : Nat
  hour_lt : hour < 24
  minute_lt : minute < 60
  second_lt : second < 60

/-- Two zero-padded decimal digits, as the chrono format fields %H, %M and
%S render an in-range value. -/
def twoDigits (n : Nat) : String :=
  String.mk [Char.ofNat (48 + n / 10), Char.ofNat (48 + n % 10)]

/-- The chrono Display output for a whole-second NaiveTime: HH:MM:SS. -/
def NaiveTime.display (t : NaiveTime) : String :=
  twoDigits t.hour ++ ":" ++ twoDigits t.minute ++ ":" ++ twoDigits t.second

/-- A chrono DateTime with a fixed offset: local calendar day, local
wall-clock time of day, and the offset from UTC in seconds.  The time()
method used by the source is the time projection. -/
structure EventDateTime where
  day : Int
  time : NaiveTime
  offsetSecs : Int

/-- The heliocron structs::EventTime: wraps an optional datetime; none
means the event does not occur on that date at those coordinates. -/
structure EventTime where
  datetime : Option EventDateTime

/-- The two event kinds the source requests from heliocron, via
enums::Event::new applied to "sunrise" or "sunset". -/
inductive EventKind where
  | sunrise
  | sunset
deriving DecidableEq

/-- The heliocron structs::Coordinates value, built in the source by literal
struct construction of Latitude and Longitude from the raw option values,
with no call to any validating constructor.  The f64 fields are modelled as
rationals (no code of the pipeline itself computes on them). -/
structure Coordinates where
  latitude : Rat
  longitude : Rat

/-- The parsed command line (struct Opt).  The time_offset field is usize
in the source, hence a Nat here: the declared type admits no negative
value. -/
structure Opt where
  verbose : Nat
  out : Option String
  time_offset : Nat
  latitude : Rat
  longitude : Rat

/-- The structopt parse of the time-offset argument (flag -s): the field
type is usize, so a negative integer fails to parse and aborts the run
before the pipeline starts. -/
def parseTimeOffset (i : Int) : Option Nat :=
  if i < 0 then none else some i.toNat

/-- One sampling of Local::today(): the local calendar day together with
the UTC offset of the local timezone at the moment of the call. -/
structure ClockReading where
  day : Int
  offsetSecs : Int

/-- The date value carried by config::Config: a calendar day, a second of
that day, and a fixed UTC offset. -/
structure CalcDate where
  day : Int
  secondOfDay : Int
  offsetSecs : Int
deriving DecidableEq

/-- Embeds the date expression of the source, which chains
Local::today().and_hms(12, 0, 0) with a conversion through with_timezone
into FixedOffset::from_offset(Local::today().offset()).  Local::today() is
called twice: reading r1 fixes the local day, anchored to noon; the
separate reading r2 supplies the fixed offset into which that instant is
then converted (with_timezone keeps the instant and changes the
representation). -/
def constructCalcDate (r1 r2 : ClockReading) : CalcDate :=
  let instantUtc : Int := r1.day * 86400 + 43200 - r1.offsetSecs
  let localSecs : Int := instantUtc + r2.offsetSecs
  { day := Int.fdiv localSecs 86400
    secondOfDay := Int.emod localSecs 86400
    offsetSecs := r2.offsetSecs }

/-- Modelled from the spec: Cargo.toml of the repository, which fixes the
map-ordering feature of serde_json, is not under src; per the output
contract of the spec the object lists day_start before day_end, i.e.
serde_json with insertion-ordered maps.  The body is the compact
serialization the json value produces: no spaces, string values, two keys
in insertion order. -/
def jsonTwoKeys (v1 v2 : String) : String :=
  "\x7b\"day_start\":\"" ++ v1 ++ "\",\"day_end\":\"" ++ v2 ++ "\"\x7d"

/-- The sunrise_sunset_json value of the source, serialized compactly: the
json macro applied to the Display renderings of the two unwrapped event
times. -/
def sunriseSunsetJson (t1 t2 : NaiveTime) : String :=
  jsonTwoKeys t1.display t2.display

/-- Observable outcome of one run: the bytes printed to stdout by the
final println, the bytes serde_json::to_writer hands the opened file, or a
panic (an unwrap of a missing event). -/
inductive RunResult where
  | stdoutOut (bytes : String)
  | fileOut (path : String) (bytes : String)
  | panicked
deriving DecidableEq

/-- The just_time closure of the source reads ev.datetime.unwrap().time();
the unwrap panics when datetime is none.  The embedding returns the time
when present and lets runMain map the none case to panicked. -/
def justTime (ev : EventTime) : Option NaiveTime :=
  ev.datetime.map EventDateTime.time

/-- The body of main, parametric over the two Local::today() readings and
over the heliocron calculate_event_time function (calcFn).  Mirrors the
source: coordinates are packaged with no range check, the offset field is
read nowhere, both events are computed, just_time unwraps them, and the
JSON goes to stdout (with a trailing newline from println) or, verbatim
with no newline, to the named file. -/
def runMain (opt : Opt) (r1 r2 : ClockReading)
    (calcFn : CalcDate → Coordinates → EventKind → EventTime) : RunResult :=
  let coords : Coordinates := { latitude := opt.latitude, longitude := opt.longitude }
  let date := constructCalcDate r1 r2
  let calcEv := fun k => calcFn date coords k
  let sunrise := calcEv .sunrise
  let sunset := calcEv .sunset
  match justTime sunrise, justTime sunset with
  | some t1, some t2 =>
    let j := sunriseSunsetJson t1 t2
    match opt.out with
    | none => .stdoutOut (j ++ String.mk [Char.ofNat 10])
    | some oname => .fileOut oname j
  | _, _ => .panicked

/-- A calculator stub whose two events both occur, with the given
datetimes. -/
def calcOf (dtr dts : EventDateTime) :
    CalcDate → Coordinates → EventKind → EventTime :=
  fun _ _ k =>
    match k with
    | .sunrise => { datetime := some dtr }
    | .sunset => { datetime := some dts }

/-- Reads the characters of a JSON string body up to the closing quote
(the serialized values here contain no escapes); returns the body and the
remaining input. -/
def readString : List Char → Option (String × List Char)
  | [] => none
  | c :: rest =>
    if c = '"' then some ("", rest)
    else
      match readString rest with
      | some (s, r) => some (String.mk (c :: s.data), r)
      | none => none

/-- Reads the comma-separated key and value entries of a compact JSON
object of string values, up to and including the closing brace; fuelled by
the input length. -/
def readEntries (fuel : Nat) (cs : List Char) : Option (List (String × String)) :=
  match fuel with
  | 0 => none
  | fuel + 1 =>
    match cs with
    | '"' :: rest =>
      match readString rest with
      | some (k, ':' :: '"' :: r2) =>
        match readString r2 with
        | some (v, ',' :: r3) =>
          match readEntries fuel r3 with
          | some es => some ((k, v) :: es)
          | none => none
        | some (v, r3) =>
          if r3 = [Char.ofNat 125] then some [(k, v)] else none
        | none => none
      | _ => none
    | _ => none

/-- Parses a compact JSON object whose values are plain strings, returning
its key and value pairs in textual order; none on anything that is not
such an object. -/
def parseObj (s : String) : Option (List (String × String)) :=
  match s.data with
  | c :: rest => if c = Char.ofNat 123 then readEntries s.length rest else none
  | [] => none

/-- Byte-level check that a string is a zero-padded 24-hour HH:MM:SS
time of day: exactly eight characters, digits around literal colons. -/
def isTimePattern (s : String) : Bool :=
  match s.data with
  | [a, b, c, d, e, f, g, h] =>
    a.isDigit && b.isDigit && c = ':' && d.isDigit && e.isDigit && f = ':' &&
      g.isDigit && h.isDigit
  | _ => false

/-- The raw NYC sunrise of the concrete scenario in the spec, 07:12:36
local, during Eastern Standard Time (UTC-05:00). -/
def nycSunrise : EventDateTime :=
  { day := 19016, time := ⟨7, 12, 36, by decide, by decide, by decide⟩, offsetSecs := -18000 }

/-- The raw NYC sunset of the concrete scenario in the spec, 17:03:42
local. -/
def nycSunset : EventDateTime :=
  { day := 19016, time := ⟨17, 3, 42, by decide, by decide, by decide⟩, offsetSecs := -18000 }

/-- A fixed clock reading: a day observed under UTC-05:00. -/
def rdEst : ClockReading :=
  { day := 19016, offsetSecs := -18000 }

/-- The clock reading one day after rdEst, after a daylight-saving switch
to UTC-04:00: what the second Local::today() call can observe when the
local date rolls over mid-run. -/
def rdEdt : ClockReading :=
  { day := 19017, offsetSecs := -14400 }

/-- Command line with the default NYC coordinates, stdout sink, and the
given offset. -/
def optWithOffset (d : Nat) : Opt :=
  { verbose := 0, out := none, time_offset := d
    latitude := 407128 / 10000, longitude := -740060 / 100000 }

/-- serde_json::to_writer streams the serialization to the underlying
io::Write sink as a sequence of separate small writes, one per token or
fragment; the source passes the just-truncated File directly, with no
intermediate buffer, so these are the successive file writes of a run with
a named output file. -/
def toWriterChunks (t1 t2 : NaiveTime) : List String :=
  ["\x7b", "\"", "day_start", "\"", ":", "\"", t1.display, "\"", ",",
   "\"", "day_end", "\"", ":", "\"", t2.display, "\"", "\x7d"]

/-- The bytes that remain in the output file when the sink fails after
accepting the first k streamed writes. -/
def writtenChunkPrefix (chunks : List String) (k : Nat) : String :=
  String.join (List.take k chunks)

/-- The character list behind the Display rendering of a NaiveTime. -/
theorem display_data (t : NaiveTime) :
    t.display.data = [Char.ofNat (48 + t.hour / 10), Char.ofNat (48 + t.hour % 10), ':',
      Char.ofNat (48 + t.minute / 10), Char.ofNat (48 + t.minute % 10), ':',
      Char.ofNat (48 + t.second / 10), Char.ofNat (48 + t.second % 10)] := rfl

/-- A character built from a decimal digit offset into the ASCII digits is
a digit. -/
theorem isDigit_ofNat_digit : ∀ k, k < 10 → (Char.ofNat (48 + k)).isDigit = true := by decide

/-- A character built from a decimal digit offset into the ASCII digits is
not a double quote. -/
theorem ofNat_digit_ne_quote : ∀ k, k < 10 → Char.ofNat (48 + k) ≠ '"' := by decide

/-- Reading a JSON string body consumes exactly the quote-free characters
up to the closing quote. -/
theorem readString_append (l : List Char) (r : List Char) (h : ∀ c ∈ l, c ≠ '"') :
    readString (l ++ '"' :: r) = some (String.mk l, r) := by
  induction l with
  | nil => rfl
  | cons c l ih =>
    have hc : c ≠ '"' := h c (List.mem_cons_self c l)
    have hl : ∀ x ∈ l, x ≠ '"' := fun x hx => h x (List.mem_cons_of_mem c hx)
    simp only [List.cons_append, readString, if_neg hc, List.append_eq, ih hl]

/-- Entry reading on a two-entry compact object body returns the two key
and value pairs in textual order. -/
theorem readEntries_pair (n : Nat) (k1 w1 k2 w2 : List Char)
    (hk1 : ∀ c ∈ k1, c ≠ '"') (hw1 : ∀ c ∈ w1, c ≠ '"')
    (hk2 : ∀ c ∈ k2, c ≠ '"') (hw2 : ∀ c ∈ w2, c ≠ '"') :
    readEntries (n + 2)
      ('"' :: (k1 ++ '"' :: ':' :: '"' :: (w1 ++ '"' :: ',' :: '"' ::
        (k2 ++ '"' :: ':' :: '"' :: (w2 ++ ['"', Char.ofNat 125])))))
      = some [(String.mk k1, String.mk w1), (String.mk k2, String.mk w2)] := by
  simp only [readEntries, readString_append _ _ hk1, readString_append _ _ hw1,
    readString_append _ _ hk2, readString_append _ _ hw2]
  rfl

/-- Parsing the serialized two-key object recovers exactly the keys
day_start and day_end, in that order, with the serialized values. -/
theorem parse_jsonTwoKeys (l1 l2 : List Char)
    (h1 : ∀ c ∈ l1, c ≠ '"') (h2 : ∀ c ∈ l2, c ≠ '"') :
    parseObj (jsonTwoKeys (String.mk l1) (String.mk l2)) =
      some [("day_start", String.mk l1), ("day_end", String.mk l2)] := by
  have hdata : (jsonTwoKeys (String.mk l1) (String.mk l2)).data =
      Char.ofNat 123 :: '"' ::
        (['d', 'a', 'y', '_', 's', 't', 'a', 'r', 't'] ++ '"' :: ':' :: '"' ::
          (l1 ++ '"' :: ',' :: '"' ::
            (['d', 'a', 'y', '_', 'e', 'n', 'd'] ++ '"' :: ':' :: '"' ::
              (l2 ++ ['"', Char.ofNat 125])))) := by
    simp only [jsonTwoKeys, String.data_append, List.append_assoc]
    rfl
  have hlen : (jsonTwoKeys (String.mk l1) (String.mk l2)).length =
      (27 + (l1.length + l2.length)) + 2 := by
    show (jsonTwoKeys (String.mk l1) (String.mk l2)).data.length = _
    rw [hdata]
    simp [List.length_append]
    omega
  unfold parseObj
  rw [hlen]
  simp only [hdata]
  exact readEntries_pair _ ['d', 'a', 'y', '_', 's', 't', 'a', 'r', 't'] l1
    ['d', 'a', 'y', '_', 'e', 'n', 'd'] l2 (by decide) h1 (by decide) h2

/-- No character of a rendered time of day is a double quote. -/
theorem display_no_quote (t : NaiveTime) : ∀ c ∈ t.display.data, c ≠ '"' := by
  have hh := t.hour_lt
  have hm := t.minute_lt
  have hs := t.second_lt
  have h1 : t.hour / 10 < 10 := by omega
  have h2 : t.hour % 10 < 10 := by omega
  have h3 : t.minute / 10 < 10 := by omega
  have h4 : t.minute % 10 < 10 := by omega
  have h5 : t.second / 10 < 10 := by omega
  have h6 : t.second % 10 < 10 := by omega
  rw [display_data]
  intro c hc
  simp only [List.mem_cons, List.not_mem_nil, or_false] at hc
  rcases hc with h | h | h | h | h | h | h | h <;> subst h
  · exact ofNat_digit_ne_quote _ h1
  · exact ofNat_digit_ne_quote _ h2
  · decide
  · exact ofNat_digit_ne_quote _ h3
  · exact ofNat_digit_ne_quote _ h4
  · decide
  · exact ofNat_digit_ne_quote _ h5
  · exact ofNat_digit_ne_quote _ h6

/-- Every rendered time of day is a zero-padded 24-hour HH:MM:SS string. -/
theorem isTimePattern_display (t : NaiveTime) : isTimePattern t.display = true := by
  have hh := t.hour_lt
  have hm := t.minute_lt
  have hs := t.second_lt
  have h1 : t.hour / 10 < 10 := by omega
  have h2 : t.hour % 10 < 10 := by omega
  have h3 : t.minute / 10 < 10 := by omega
  have h4 : t.minute % 10 < 10 := by omega
  have h5 : t.second / 10 < 10 := by omega
  have h6 : t.second % 10 < 10 := by omega
  simp only [isTimePattern, display_data, isDigit_ofNat_digit _ h1, isDigit_ofNat_digit _ h2,
    isDigit_ofNat_digit _ h3, isDigit_ofNat_digit _ h4, isDigit_ofNat_digit _ h5,
    isDigit_ofNat_digit _ h6, Bool.true_and, Bool.and_true]
  decide

/-- Claim C1: the claim says the reported day_start is the time of day of
the raw sunrise plus the offset and day_end the raw sunset minus it, with
07:42:36 and 16:33:42 expected for offset 30 on the concrete scenario.
The code never applies the offset: with offset 30 and raw events 07:12:36
and 17:03:42 it emits the raw times unchanged, which differ from the
claimed adjusted times. -/
theorem c1_offset_not_applied :
    runMain (optWithOffset 30) rdEst rdEst (calcOf nycSunrise nycSunset) =
      .stdoutOut ("\x7b\"day_start\":\"07:12:36\",\"day_end\":\"17:03:42\"\x7d" ++
        String.mk [Char.ofNat 10]) ∧
    "07:12:36" ≠ "07:42:36" ∧ "17:03:42" ≠ "16:33:42" :=
  ⟨rfl, by decide, by decide⟩

/-- Claim C2: the claim says a missing event is surfaced as a NoEventError
and never unwrapped unconditionally.  The code unconditionally unwraps: a
run whose calculator returns none for sunrise, or for sunset, ends in a
panic rather than any surfaced error value. -/
theorem c2_none_event_panics :
    runMain (optWithOffset 0) rdEst rdEst (fun _ _ _ => { datetime := none }) = .panicked ∧
    runMain (optWithOffset 0) rdEst rdEst
      (fun _ _ k =>
        match k with
        | .sunrise => { datetime := some nycSunrise }
        | .sunset => { datetime := none }) = .panicked :=
  ⟨rfl, rfl⟩

/-- Claim C3: the claim says latitude outside the range from -90 to 90 or
longitude outside the range from -180 to 180 fails with a
ConfigurationError before any event computation.  The code performs no
range validation: with latitude 91 and longitude 200, both out of range,
the run still consults the calculator and produces a computed result. -/
theorem c3_out_of_range_not_rejected :
    ((91 : Rat) > 90 ∧ (200 : Rat) > 180) ∧
    ∀ (dtr dts : EventDateTime) (r1 r2 : ClockReading),
      runMain { verbose := 0, out := none, time_offset := 0, latitude := 91, longitude := 200 }
          r1 r2 (calcOf dtr dts) =
        .stdoutOut (sunriseSunsetJson dtr.time dts.time ++ String.mk [Char.ofNat 10]) :=
  ⟨⟨by norm_num, by norm_num⟩, fun _ _ _ _ => rfl⟩

/-- Claim C4: every successful run emits a single JSON object with exactly
the keys day_start and day_end, in that order with those names, each value
a zero-padded 24-hour HH:MM:SS string; parsing the emitted object recovers
exactly those two entries, and the run emits exactly that object to the
chosen sink. -/
theorem c4_output_shape :
    ∀ (t1 t2 : NaiveTime) (o : Opt) (r1 r2 : ClockReading) (dtr dts : EventDateTime),
      parseObj (sunriseSunsetJson t1 t2) =
        some [("day_start", t1.display), ("day_end", t2.display)] ∧
      isTimePattern t1.display = true ∧ isTimePattern t2.display = true ∧
      runMain o r1 r2 (calcOf dtr dts) =
        (match o.out with
          | none => .stdoutOut (sunriseSunsetJson dtr.time dts.time ++ String.mk [Char.ofNat 10])
          | some n => .fileOut n (sunriseSunsetJson dtr.time dts.time)) := by
  intro t1 t2 o r1 r2 dtr dts
  refine ⟨?_, isTimePattern_display t1, isTimePattern_display t2, ?_⟩
  · exact parse_jsonTwoKeys t1.display.data t2.display.data
      (display_no_quote t1) (display_no_quote t2)
  · obtain ⟨v, out, d, la, lo⟩ := o
    cases out <;> rfl

/-- Claim C5: the claim says the offset is a signed integer, negatives are
accepted, and a negative offset widens the reported day.  In the code the
field type is usize: a negative argument fails to parse, the field can
never hold a negative value, and the offset has no effect at all on the
result. -/
theorem c5_offset_unsigned_and_unused :
    parseTimeOffset (-30) = none ∧
    (∀ o : Opt, (0 : Int) ≤ (o.time_offset : Int)) ∧
    (∀ (o : Opt) (a b : Nat) (r1 r2 : ClockReading)
        (cf : CalcDate → Coordinates → EventKind → EventTime),
      runMain { o with time_offset := a } r1 r2 cf =
        runMain { o with time_offset := b } r1 r2 cf) :=
  ⟨by decide, fun _ => Int.ofNat_nonneg _, fun _ _ _ _ _ _ => rfl⟩

/-- Claim C6 counterexample: on the concrete NYC scenario the bytes
written to a named output file and the bytes written to stdout are not
equal: the stdout bytes carry a trailing newline the file bytes lack. -/
theorem c6_file_bytes_differ_from_stdout :
    runMain (optWithOffset 0) rdEst rdEst (calcOf nycSunrise nycSunset) =
      .stdoutOut ("\x7b\"day_start\":\"07:12:36\",\"day_end\":\"17:03:42\"\x7d" ++
        String.mk [Char.ofNat 10]) ∧
    runMain { optWithOffset 0 with out := some "sunrise_sunset.json" } rdEst rdEst
        (calcOf nycSunrise nycSunset) =
      .fileOut "sunrise_sunset.json" "\x7b\"day_start\":\"07:12:36\",\"day_end\":\"17:03:42\"\x7d" ∧
    ("\x7b\"day_start\":\"07:12:36\",\"day_end\":\"17:03:42\"\x7d" ++ String.mk [Char.ofNat 10]) ≠
      "\x7b\"day_start\":\"07:12:36\",\"day_end\":\"17:03:42\"\x7d" :=
  ⟨rfl, rfl, by decide⟩

/-- Claim C6 amended: for identical inputs and identical calculator
results, the bytes written to a named output file, followed by one newline
character, equal the bytes that would have been written to stdout. -/
theorem c6_amended_file_plus_newline_is_stdout :
    ∀ (o : Opt) (r1 r2 : ClockReading) (dtr dts : EventDateTime) (n : String),
      ∃ j : String,
        runMain { o with out := some n } r1 r2 (calcOf dtr dts) = .fileOut n j ∧
        runMain { o with out := none } r1 r2 (calcOf dtr dts) =
          .stdoutOut (j ++ String.mk [Char.ofNat 10]) :=
  fun _ _ _ dtr dts _ => ⟨sunriseSunsetJson dtr.time dts.time, rfl, rfl⟩

/-- Claim C7: the claim says offset application is overflow-checked and an
overflowing offset aborts with a ComputationError.  The code contains no
offset arithmetic at all: for every offset value, arbitrarily large, the
run succeeds and emits the raw event times unchanged, and no error outcome
of any kind exists for the offset. -/
theorem c7_no_overflow_check_exists :
    ∀ d : Nat,
      runMain (optWithOffset d) rdEst rdEst (calcOf nycSunrise nycSunset) =
        .stdoutOut ("\x7b\"day_start\":\"07:12:36\",\"day_end\":\"17:03:42\"\x7d" ++
          String.mk [Char.ofNat 10]) :=
  fun _ => rfl

/-- Claim C8: the claim says output is all-or-nothing and no partly
written JSON ever remains in a named output file.  The code streams the
serialization into the already-truncated file with no intermediate buffer;
the streamed writes concatenate to the full object, so a sink that fails
after the first three writes leaves a nonempty prefix in the file that is
not a JSON object. -/
theorem c8_direct_stream_leaves_truncated_json :
    (∀ t1 t2 : NaiveTime, String.join (toWriterChunks t1 t2) = sunriseSunsetJson t1 t2) ∧
    writtenChunkPrefix (toWriterChunks nycSunrise.time nycSunset.time) 3 = "\x7b\"day_start" ∧
    writtenChunkPrefix (toWriterChunks nycSunrise.time nycSunset.time) 3 ≠ "" ∧
    parseObj "\x7b\"day_start" = none := by
  refine ⟨?_, by decide, by decide, by decide⟩
  intro t1 t2
  apply String.ext
  simp [toWriterChunks, sunriseSunsetJson, jsonTwoKeys, String.join, String.data_append,
    List.append_assoc]

/-- Claim C9: the claim says the default date is built from exactly one
sampling of the local clock and timezone, so the date and the offset can
never come from different readings.  The code samples Local::today()
twice: with a first reading on a day under UTC-05:00 and a second reading
on the next day under UTC-04:00, the constructed value differs from the
value either single reading would give, takes its day from the first
reading, and takes its offset from the second. -/
theorem c9_clock_sampled_twice :
    constructCalcDate rdEst rdEdt ≠ constructCalcDate rdEst rdEst ∧
    constructCalcDate rdEst rdEdt ≠ constructCalcDate rdEdt rdEdt ∧
    (constructCalcDate rdEst rdEdt).day = rdEst.day ∧
    (constructCalcDate rdEst rdEdt).offsetSecs = rdEdt.offsetSecs ∧
    rdEst.day ≠ rdEdt.day ∧ rdEst.offsetSecs ≠ rdEdt.offsetSecs := by
  refine ⟨by decide, by decide, by decide, by decide, by decide, by decide⟩

/-- Claim C10: for every successful run, the stdout sink receives the
compact serialization followed by one trailing newline, while a named file
receives the compact serialization with no trailing newline — its last
byte is the closing brace, not a newline. -/
theorem c10_stdout_newline_file_none :
    ∀ (o : Opt) (r1 r2 : ClockReading) (dtr dts : EventDateTime) (n : String),
      runMain { o with out := none } r1 r2 (calcOf dtr dts) =
        .stdoutOut (sunriseSunsetJson dtr.time dts.time ++ String.mk [Char.ofNat 10]) ∧
      runMain { o with out := some n } r1 r2 (calcOf dtr dts) =
        .fileOut n (sunriseSunsetJson dtr.time dts.time) ∧
      (sunriseSunsetJson dtr.time dts.time).data.getLast? = some (Char.ofNat 125) ∧
      Char.ofNat 125 ≠ Char.ofNat 10 := by
  intro o r1 r2 dtr dts n
  refine ⟨rfl, rfl, ?_, by decide⟩
  rw [show sunriseSunsetJson dtr.time dts.time =
      ("\x7b\"day_start\":\"" ++ dtr.time.display ++ "\",\"day_end\":\"" ++ dts.time.display) ++
        "\"\x7d" from rfl]
  rw [String.data_append]
  rw [List.getLast?_append_of_ne_nil _ (by decide)]
  decide

end Hal
